import Mathlib

/-!
Verification of the request admission control layer of the INRE-AI-Dock
backend: the department/model token-quota ledger (`app/services/quota_service.py`,
`app/models/__init__.py`), the chat admission coordinator
(`app/services/chat_service.py`, `app/services/llm_service.py`) and the
sliding-window rate limiter (`app/middleware/rate_limit.py`).

Conventions of the shallow embedding:
* token counts are `Nat` (they start at 0 and only grow by non-negative
  provider-reported counts);
* timestamps are `Int` seconds (`time.time()` and `datetime.utcnow()` are
  mapped onto one integer timeline; block durations in minutes become
  `60 * minutes` seconds);
* the float comparison `would_be_usage >= monthly_limit_tokens * 0.8` of the
  source is modelled by the exact rational inequality
  `4 * limit <= 5 * would_be_usage`, and `int(total * 1.1)` /
  `int(total * 0.9)` by `total * 11 / 10` / `total * 9 / 10` (floor), which
  agree with the IEEE-754 evaluation for all realistic token counts;
* Python exceptions become explicit sum types (`Except`, outcome inductives).
-/

/-! ## Data model: `DepartmentQuota` (app/models/__init__.py, lines 49-84) -/

/-- Embedding of the `department_quotas` row fields used by admission control:
`monthly_limit_tokens` (0 = unlimited) and `current_usage_tokens`. -/
structure DepartmentQuota where
  monthly_limit_tokens : Nat
  current_usage_tokens : Nat
  deriving Repr, DecidableEq

namespace DepartmentQuota

/-- Hybrid property `usage_percentage`: 0 when the limit is 0, else
`current_usage_tokens / monthly_limit_tokens * 100` (exact rational). -/
def usage_percentage (q : DepartmentQuota) : ℚ :=
  if q.monthly_limit_tokens = 0 then 0
  else (q.current_usage_tokens : ℚ) / (q.monthly_limit_tokens : ℚ) * 100

/-- Hybrid property `is_quota_exceeded`:
`current_usage_tokens >= monthly_limit_tokens`, with no special case for
unlimited (limit = 0) quotas. -/
def is_quota_exceeded (q : DepartmentQuota) : Bool :=
  decide (q.monthly_limit_tokens ≤ q.current_usage_tokens)

end DepartmentQuota

/-! ## Quota Ledger: `QuotaService.validate_request_quota`
(app/services/quota_service.py, lines 302-387) -/

/-- Which branch of `validate_request_quota` produced the decision, i.e. which
message family the Python function returns: "No quota limits applied"
(`Unlimited`), "Request would exceed monthly quota limit" (`HardExceeded`),
"Quota warning" (`Warning`), "Within quota limits" (`Ok`). -/
inductive QuotaReason
  | Unlimited
  | HardExceeded
  | Warning
  | Ok
  deriving Repr, DecidableEq

/-- The `(can_proceed, message, quota_details)` outcome of
`validate_request_quota`, keeping the fields the claims are about. -/
structure QuotaDecision where
  allowed : Bool
  reason : QuotaReason
  would_be_usage : Nat
  deriving Repr, DecidableEq

/-- Embedding of `QuotaService.validate_request_quota` for an existing quota
row. Branches, in source order: unlimited bypass (`monthly_limit_tokens == 0`),
hard limit (`would_be_usage > monthly_limit_tokens`), warning threshold
(`would_be_usage >= monthly_limit_tokens * 0.8`, modelled exactly as
`4 * limit <= 5 * would_be_usage`), otherwise all clear. The quota row itself
is not mutated. -/
def validate_request_quota (q : DepartmentQuota) (estimated_tokens : Nat) :
    QuotaDecision :=
  if q.monthly_limit_tokens = 0 then
    { allowed := true, reason := .Unlimited,
      would_be_usage := q.current_usage_tokens + estimated_tokens }
  else
    let would_be_usage := q.current_usage_tokens + estimated_tokens
    if q.monthly_limit_tokens < would_be_usage then
      { allowed := false, reason := .HardExceeded, would_be_usage }
    else if 4 * q.monthly_limit_tokens ≤ 5 * would_be_usage then
      { allowed := true, reason := .Warning, would_be_usage }
    else
      { allowed := true, reason := .Ok, would_be_usage }

/-! ## Quota mutation: `QuotaService.update_quota_usage`
(app/services/quota_service.py, lines 270-296) and
`ChatService._update_quota_usage` (app/services/chat_service.py, lines
596-615), both of which run `quota.current_usage_tokens += tokens_used`,
and the monthly reset (`reset_quotas` / `auto_reset_monthly_quotas`,
quota_service.py lines 713-760), which runs `quota.current_usage_tokens = 0`. -/

/-- The increment applied to an existing quota row by
`QuotaService.update_quota_usage` and `ChatService._update_quota_usage`. -/
def update_quota_usage (q : DepartmentQuota) (tokens_used : Nat) :
    DepartmentQuota :=
  { q with current_usage_tokens := q.current_usage_tokens + tokens_used }

/-- The monthly reset applied by `QuotaService.reset_quotas` (reset_type
"monthly"/"both") and `QuotaService.auto_reset_monthly_quotas`:
`current_usage_tokens = 0`. -/
def reset_monthly (q : DepartmentQuota) : DepartmentQuota :=
  { q with current_usage_tokens := 0 }

/-! ## Token Estimator: `ChatService._estimate_request_tokens`
(app/services/chat_service.py, lines 367-387) -/

/-- The fields of `LLMConfiguration` consulted by admission control. -/
structure LLMConfiguration where
  model_name : String
  provider : String
  enabled : Bool
  deriving Repr, DecidableEq

/-- ASCII lowercasing of one character, the effect of Python `str.lower` on
the ASCII provider/model names compared by the source. -/
def charLower (c : Char) : Char :=
  if 'A' ≤ c ∧ c ≤ 'Z' then Char.ofNat (c.toNat + 32) else c

/-- Python `s.lower()` on the character data of `s` (ASCII). -/
def strLower (s : String) : List Char :=
  s.data.map charLower

/-- Python substring test `needle in haystack`. -/
def strContains (haystack : List Char) (needle : String) : Bool :=
  decide (List.IsInfix needle.data haystack)

/-- Embedding of `ChatService._estimate_request_tokens`:
`message_tokens = len(message) // 4`, plus 50 system-prompt overhead, plus
`max(100, message_tokens // 2)` response buffer; `int(total * 1.1)` when the
provider is "openai" and the lowercased model name contains "gpt-4",
`int(total * 0.9)` when it contains "gpt-3.5"; floored at 100. -/
def estimate_request_tokens (message : String) (cfg : LLMConfiguration) : Nat :=
  let message_tokens := message.length / 4
  let system_prompt_tokens := 50
  let response_buffer := max 100 (message_tokens / 2)
  let total_estimated := message_tokens + system_prompt_tokens + response_buffer
  let adjusted :=
    if strLower cfg.provider = "openai".data then
      if strContains (strLower cfg.model_name) "gpt-4" then
        total_estimated * 11 / 10
      else if strContains (strLower cfg.model_name) "gpt-3.5" then
        total_estimated * 9 / 10
      else total_estimated
    else total_estimated
  max 100 adjusted

/-! ## Admission Coordinator: `ChatService.send_message`
(app/services/chat_service.py, lines 58-167) and `LLMService.send_message`
(app/services/llm_service.py, lines 53-97).

The LLM provider is an external collaborator: its outcome is passed in as an
`Except` value. `LLMService.send_message` turns `httpx.TimeoutException` and
`httpx.HTTPStatusError` into `LLMProviderError`, so the failure side of the
`Except` covers timeouts. -/

/-- The failure modes `LLMService.send_message` surfaces as
`LLMProviderError`: timeout (llm_service.py lines 83-88), HTTP status errors
(lines 89-95), and provider-reported errors such as the unimplemented
Anthropic/Azure handlers. -/
inductive LLMProviderFailure
  | timeout
  | httpStatusError (status : Nat)
  | notImplemented (provider : String)
  deriving Repr, DecidableEq

/-- The mutable state `ChatService.send_message` touches: the quota row for
the (department, model) pair and the append-only usage-log table (kept as the
`(tokens_prompt, tokens_completion)` column pair of each row). -/
structure ChatState where
  quota : DepartmentQuota
  usage_logs : List (Nat × Nat)
  deriving Repr, DecidableEq

/-- The error classes `ChatService.send_message` can raise for admission and
provider failures: `QuotaExceededError` (chat_service.py line 100) and
`ChatServiceError` wrapping an `LLMProviderError` (line 159). -/
inductive ChatError
  | quotaExceeded
  | providerError (f : LLMProviderFailure)
  deriving Repr, DecidableEq

/-- Embedding of `ChatService.send_message` after model resolution, for an
existing quota row: estimate tokens, validate quota (raising
`QuotaExceededError` when not allowed), invoke the provider, and on success
append a usage record and increment the quota by the actual
`prompt_tokens + completion_tokens`. When the provider call raises
`LLMProviderError` (the `except LLMProviderError` arm, line 158), steps 5-6
are skipped: no usage record, no quota update. -/
def chat_send_message (st : ChatState) (message : String)
    (cfg : LLMConfiguration)
    (provider_result : Except LLMProviderFailure (String × Nat × Nat)) :
    Except ChatError (String × Nat × Nat) × ChatState :=
  let estimated_tokens := estimate_request_tokens message cfg
  let decision := validate_request_quota st.quota estimated_tokens
  if decision.allowed = false then
    (.error .quotaExceeded, st)
  else
    match provider_result with
    | .error f => (.error (.providerError f), st)
    | .ok (response_text, prompt_tokens, completion_tokens) =>
      let st1 : ChatState :=
        { st with usage_logs := st.usage_logs ++ [(prompt_tokens, completion_tokens)] }
      let st2 : ChatState :=
        { st1 with quota := update_quota_usage st1.quota (prompt_tokens + completion_tokens) }
      (.ok (response_text, prompt_tokens, completion_tokens), st2)

/-! ## Status surfaces built on `is_quota_exceeded`:
`QuotaService.get_quota_enforcement_status` (quota_service.py, lines 389-450)
and `ChatService.get_usage_quota_info` (chat_service.py, lines 212-256). -/

/-- The status fields of `get_quota_enforcement_status` that depend on the
quota row (for an existing row). -/
structure QuotaEnforcementStatus where
  usage_percentage : ℚ
  remaining_tokens : Nat
  is_exceeded : Bool
  is_warning : Bool
  is_unlimited : Bool
  enforcement_active : Bool
  can_send_requests : Bool
  deriving Repr, DecidableEq

/-- Embedding of `QuotaService.get_quota_enforcement_status` for an existing
quota row: `is_exceeded = quota.is_quota_exceeded`,
`is_warning = usage_percentage >= 80 and not is_exceeded`,
`can_send_requests = not is_exceeded`,
`remaining_tokens = max(0, limit - usage)` (automatic in `Nat`). -/
def get_quota_enforcement_status (q : DepartmentQuota) : QuotaEnforcementStatus :=
  let current_percentage : ℚ :=
    if 0 < q.monthly_limit_tokens then q.usage_percentage else 0
  let is_exceeded := q.is_quota_exceeded
  { usage_percentage := current_percentage
    remaining_tokens := q.monthly_limit_tokens - q.current_usage_tokens
    is_exceeded := is_exceeded
    is_warning := decide (80 ≤ current_percentage) && !is_exceeded
    is_unlimited := decide (q.monthly_limit_tokens = 0)
    enforcement_active := decide (0 < q.monthly_limit_tokens)
    can_send_requests := !is_exceeded }

/-- The quota fields of the `UsageQuotaInfo` response of
`ChatService.get_usage_quota_info`. -/
structure UsageQuotaInfo where
  monthly_limit : Nat
  current_usage : Nat
  usage_percentage : ℚ
  quota_exceeded : Bool
  remaining_tokens : Nat
  deriving Repr, DecidableEq

/-- Embedding of `ChatService.get_usage_quota_info` for an existing quota row:
`quota_exceeded = quota.is_quota_exceeded`,
`remaining_tokens = max(0, limit - usage)`. -/
def get_usage_quota_info (q : DepartmentQuota) : UsageQuotaInfo :=
  { monthly_limit := q.monthly_limit_tokens
    current_usage := q.current_usage_tokens
    usage_percentage := q.usage_percentage
    quota_exceeded := q.is_quota_exceeded
    remaining_tokens := q.monthly_limit_tokens - q.current_usage_tokens }

/-! ## Rate Limiter: `InMemoryStorage` and `RateLimitMiddleware`
(app/middleware/rate_limit.py).

State is modelled per (client IP, endpoint class) key with the username
sub-key of that IP, matching how the middleware consults the global
`InMemoryStorage` for one request. `time.time()` and `datetime.utcnow()` are
mapped onto one `Int` timeline in seconds, each request carrying one
timestamp `now`. -/

/-- The per-endpoint-class configuration of the `RATE_LIMITS` table
(rate_limit.py, lines 116-152): `requests` per IP, `window` seconds,
`user_limit` per (username, ip), `block_threshold`, `block_duration` minutes. -/
structure RateLimitConfig where
  requests : Nat
  window : Int
  user_limit : Nat
  block_threshold : Nat
  block_duration : Int
  deriving Repr, DecidableEq

/-- Login class of `RATE_LIMITS`: 5 requests / 900 s per IP, user limit 3, block at
10 attempts for 30 minutes. -/
def loginLimits : RateLimitConfig :=
  { requests := 5, window := 900, user_limit := 3,
    block_threshold := 10, block_duration := 30 }

/-- Refresh class of `RATE_LIMITS`: 30 / 300 s per IP, user limit 20, block at 50
for 15 minutes. -/
def refreshLimits : RateLimitConfig :=
  { requests := 30, window := 300, user_limit := 20,
    block_threshold := 50, block_duration := 15 }

/-- Logout class of `RATE_LIMITS`: 10 / 60 s per IP, user limit 5, block at 20 for
5 minutes. -/
def logoutLimits : RateLimitConfig :=
  { requests := 10, window := 60, user_limit := 5,
    block_threshold := 20, block_duration := 5 }

/-- Profile class of `RATE_LIMITS`: 60 / 300 s per IP, user limit 40, block at 100
for 10 minutes. -/
def profileLimits : RateLimitConfig :=
  { requests := 60, window := 300, user_limit := 40,
    block_threshold := 100, block_duration := 10 }

/-- General class of `RATE_LIMITS`: 100 / 300 s per IP, user limit 60, block at 200
for 15 minutes. -/
def generalLimits : RateLimitConfig :=
  { requests := 100, window := 300, user_limit := 60,
    block_threshold := 200, block_duration := 15 }

/-- The `while self.data[key] and now - self.data[key][0] > window:
popleft()` loop shared by `add_attempt` / `get_attempts` /
`add_user_attempt` / `get_user_attempts`: drop leading timestamps strictly
older than `window` seconds, stopping at the first recent one. -/
def pruneOld (window now : Int) : List Int → List Int
  | [] => []
  | t :: ts => if window < now - t then pruneOld window now ts else t :: ts

/-- Embedding of `InMemoryStorage.add_attempt` (lines 41-50): prune, then append `now`. -/
def add_attempt (window now : Int) (l : List Int) : List Int :=
  pruneOld window now l ++ [now]

/-- Embedding of `InMemoryStorage.get_attempts` (lines 52-61): prune, then count; the
pruned deque is also the stored state afterwards. -/
def get_attempts (window now : Int) (l : List Int) : Nat × List Int :=
  ((pruneOld window now l).length, pruneOld window now l)

/-- Embedding of `InMemoryStorage.block_ip` (lines 87-90): `blocked_until` becomes
`utcnow + duration_minutes`. -/
def block_ip (now duration_minutes : Int) : Option Int :=
  some (now + 60 * duration_minutes)

/-- Embedding of `InMemoryStorage.is_ip_blocked` (lines 92-100): blocked while
`now < blocked_until`; an expired entry is deleted on this first read. The
result pairs the answer with the updated `blocked_ips` entry for this IP. -/
def is_ip_blocked (now : Int) (b : Option Int) : Bool × Option Int :=
  match b with
  | some blocked_until => if now < blocked_until then (true, some blocked_until) else (false, none)
  | none => (false, none)

/-- The (ip, endpoint-class) slice of `InMemoryStorage` a request touches:
the attempt deque `data[ip]`, the `blocked_ips[ip]` entry, and the
`user_attempts[username][username:ip]` deque of the request user. -/
structure RateLimitState where
  attempts : List Int
  blocked_until : Option Int
  user_attempts : List Int
  deriving Repr, DecidableEq

/-- Empty storage for a fresh (ip, endpoint class, username) key. -/
def rlEmpty : RateLimitState :=
  { attempts := [], blocked_until := none, user_attempts := [] }

/-- The per-user condition under which `_check_user_rate_limit`
(rate_limit.py, lines 319-363) builds and raises its
`USER_RATE_LIMIT_EXCEEDED` `HTTPException`: after `add_user_attempt` and
`get_user_attempts`, the count strictly exceeds `user_limit`. The raise is
swallowed by the blanket `except Exception` of the same method (line 361),
so this condition never rejects the request in `rate_limit_step`. -/
def user_sub_limit_fired (limits : RateLimitConfig) (now : Int)
    (user_attempts : List Int) : Bool :=
  decide (limits.user_limit <
    (get_attempts limits.window now (add_attempt limits.window now user_attempts)).1)

/-- The outcome of `RateLimitMiddleware.dispatch` for one auth request:
admitted, 429 `RATE_LIMIT_EXCEEDED`, or 429 `IP_BLOCKED`. There is no
user-rate-limited outcome because the `USER_RATE_LIMIT_EXCEEDED` exception of
`_check_user_rate_limit` is caught inside that method and never reaches
`dispatch`. -/
inductive RLOutcome
  | Allowed
  | RateLimited
  | IPBlocked
  deriving Repr, DecidableEq

/-- Embedding of `RateLimitMiddleware.dispatch` together with
`_apply_rate_limiting` and `_check_user_rate_limit` for one auth-path request
(rate limiting enabled, non-admin caller): (1) reject at once when the IP is
blocked; (2) `add_attempt` then `get_attempts`, reject with
`RATE_LIMIT_EXCEEDED` when the count strictly exceeds `requests`, first
blocking the IP when the count also reaches `block_threshold`; (3) for login
requests carrying a username, record the (username, ip) attempt — the
over-limit exception being swallowed, the request is then admitted either
way. -/
def rate_limit_step (limits : RateLimitConfig) (is_login has_username : Bool)
    (now : Int) (st : RateLimitState) : RLOutcome × RateLimitState :=
  match is_ip_blocked now st.blocked_until with
  | (true, bu) => (.IPBlocked, { st with blocked_until := bu })
  | (false, bu) =>
    let (ip_attempts, pruned) :=
      get_attempts limits.window now (add_attempt limits.window now st.attempts)
    if limits.requests < ip_attempts then
      let bu' := if limits.block_threshold ≤ ip_attempts then
        block_ip now limits.block_duration else bu
      (.RateLimited,
        { attempts := pruned, blocked_until := bu', user_attempts := st.user_attempts })
    else if is_login && has_username then
      let ua := (get_attempts limits.window now
        (add_attempt limits.window now st.user_attempts)).2
      (.Allowed, { attempts := pruned, blocked_until := bu, user_attempts := ua })
    else
      (.Allowed, { attempts := pruned, blocked_until := bu, user_attempts := st.user_attempts })

/-- A sequence of requests from the same (ip, username) against one endpoint
class, returning the outcome of each request and the final storage state. -/
def rate_limit_run (limits : RateLimitConfig) (is_login has_username : Bool)
    (st : RateLimitState) : List Int → List RLOutcome × RateLimitState
  | [] => ([], st)
  | now :: rest =>
    let (o, st1) := rate_limit_step limits is_login has_username now st
    let (os, st2) := rate_limit_run limits is_login has_username st1 rest
    (o :: os, st2)

/-! ## Helper lemmas -/

/-- On a chronologically sorted deque the prefix-pruning loop of
`InMemoryStorage` retains exactly the timestamps within `window` seconds of
`now`. -/
theorem pruneOld_eq_filter_of_sorted (window now : Int) :
    ∀ l : List Int, l.Pairwise (· ≤ ·) →
      pruneOld window now l = l.filter (fun t => decide (now - t ≤ window)) := by
  intro l h
  induction l with
  | nil => rfl
  | cons t ts ih =>
    rw [List.pairwise_cons] at h
    by_cases hold : window < now - t
    · have hpred : (fun t => decide (now - t ≤ window)) t = false := by
        simp only [decide_eq_false_iff_not]
        omega
      rw [List.filter_cons_of_neg (by simp_all), pruneOld, if_pos hold]
      exact ih h.2
    · have hkeep : now - t ≤ window := by omega
      rw [pruneOld, if_neg hold, List.filter_cons_of_pos (by simpa using hkeep)]
      have : ts.filter (fun t => decide (now - t ≤ window)) = ts := by
        rw [List.filter_eq_self]
        intro a ha
        have := h.1 a ha
        simp only [decide_eq_true_eq]
        omega
      rw [this]

/-- Folding successive usage increments over a quota adds the sum of the
deltas to the starting usage. -/
theorem foldl_update_quota_usage (ds : List (Nat × Nat)) (q : DepartmentQuota) :
    (ds.foldl (fun acc d => update_quota_usage acc (d.1 + d.2)) q).current_usage_tokens
      = q.current_usage_tokens + (ds.map (fun d => d.1 + d.2)).sum := by
  induction ds generalizing q with
  | nil => simp
  | cons d ds ih =>
    rw [List.foldl_cons, ih, List.map_cons, List.sum_cons]
    simp only [update_quota_usage]
    omega

/-! ## Claim theorems -/

/-- C1: for every quota with `monthly_limit_tokens > 0`, `validate_request_quota`
rejects exactly when `current_usage_tokens + estimated_tokens` strictly exceeds
the limit, and a rejection is exactly a `HardExceeded` decision; with
limit 10000 and current 9000, an estimate of 1000 (`would_be_usage = limit`)
is allowed with reason `Warning` (never `HardExceeded`), while 1001 is
rejected with `would_be_usage = 10001`. The source consults no enforcement
mode: `validate_request_quota` has no enforcement-mode input at all, so the
boundary holds regardless of mode. -/
theorem quota_boundary_correct (q : DepartmentQuota) (estimated : Nat)
    (hpos : 0 < q.monthly_limit_tokens) :
    ((validate_request_quota q estimated).allowed = false ↔
        q.monthly_limit_tokens < q.current_usage_tokens + estimated)
    ∧ ((validate_request_quota q estimated).reason = .HardExceeded ↔
        q.monthly_limit_tokens < q.current_usage_tokens + estimated)
    ∧ validate_request_quota ⟨10000, 9000⟩ 1000 =
        { allowed := true, reason := .Warning, would_be_usage := 10000 }
    ∧ validate_request_quota ⟨10000, 9000⟩ 1001 =
        { allowed := false, reason := .HardExceeded, would_be_usage := 10001 } := by
  refine ⟨?_, ?_, by decide, by decide⟩ <;>
  · unfold validate_request_quota
    rw [if_neg (Nat.pos_iff_ne_zero.mp hpos)]
    by_cases h : q.monthly_limit_tokens < q.current_usage_tokens + estimated
    · simp [h]
    · rw [if_neg h]
      by_cases h2 : 4 * q.monthly_limit_tokens ≤ 5 * (q.current_usage_tokens + estimated)
      · simp [h, h2]
      · simp [h, h2]

/-- Witness for C1 at limit 10000, current 9000, estimate 1001. -/
theorem quota_boundary_correct_witness :
    ((validate_request_quota ⟨10000, 9000⟩ 1001).allowed = false ↔ 10000 < 9000 + 1001)
    ∧ ((validate_request_quota ⟨10000, 9000⟩ 1001).reason = .HardExceeded ↔
        10000 < 9000 + 1001)
    ∧ validate_request_quota ⟨10000, 9000⟩ 1000 =
        { allowed := true, reason := .Warning, would_be_usage := 10000 }
    ∧ validate_request_quota ⟨10000, 9000⟩ 1001 =
        { allowed := false, reason := .HardExceeded, would_be_usage := 10001 } :=
  quota_boundary_correct ⟨10000, 9000⟩ 1001 (by decide)

/-- C5: a quota with `monthly_limit_tokens = 0` is unlimited:
`validate_request_quota` allows every request, whatever the current usage and
estimate, through the "No quota limits applied" branch. -/
theorem unlimited_quota_bypass (current estimated : Nat) :
    (validate_request_quota ⟨0, current⟩ estimated).allowed = true
    ∧ (validate_request_quota ⟨0, current⟩ estimated).reason = .Unlimited := by
  constructor <;> rfl

/-- C6: with limit 10000, threshold 80 percent and current 7500, an estimate
of 800 (83 percent after) is allowed with reason `Warning` and an estimate of
400 (79 percent after) with reason `Ok`; in general, for a positive limit an
allowed request gets reason `Warning` exactly when
`would_be_usage >= limit * 80 / 100` (stated exactly as
`80 * limit <= 100 * would_be_usage`; the warning threshold of
`validate_request_quota` is the fixed 80 percent of the source, line 371). -/
theorem warning_threshold_correct (q : DepartmentQuota) (estimated : Nat)
    (hpos : 0 < q.monthly_limit_tokens) :
    validate_request_quota ⟨10000, 7500⟩ 800 =
        { allowed := true, reason := .Warning, would_be_usage := 8300 }
    ∧ validate_request_quota ⟨10000, 7500⟩ 400 =
        { allowed := true, reason := .Ok, would_be_usage := 7900 }
    ∧ ((validate_request_quota q estimated).allowed = true →
        ((validate_request_quota q estimated).reason = .Warning ↔
          80 * q.monthly_limit_tokens ≤
            100 * (q.current_usage_tokens + estimated))) := by
  refine ⟨by decide, by decide, ?_⟩
  unfold validate_request_quota
  rw [if_neg (Nat.pos_iff_ne_zero.mp hpos)]
  by_cases h : q.monthly_limit_tokens < q.current_usage_tokens + estimated
  · simp [h]
  · rw [if_neg h]
    by_cases h2 : 4 * q.monthly_limit_tokens ≤ 5 * (q.current_usage_tokens + estimated)
    · rw [if_pos h2]
      intro _
      constructor
      · intro _; omega
      · intro _; rfl
    · rw [if_neg h2]
      intro _
      constructor
      · intro habs; exact QuotaReason.noConfusion habs
      · intro hle; exact absurd hle (by omega)

/-- Witness for C6 at limit 10000, current 7500, estimate 800. -/
theorem warning_threshold_correct_witness :
    validate_request_quota ⟨10000, 7500⟩ 800 =
        { allowed := true, reason := .Warning, would_be_usage := 8300 }
    ∧ validate_request_quota ⟨10000, 7500⟩ 400 =
        { allowed := true, reason := .Ok, would_be_usage := 7900 }
    ∧ ((validate_request_quota ⟨10000, 7500⟩ 800).allowed = true →
        ((validate_request_quota ⟨10000, 7500⟩ 800).reason = .Warning ↔
          80 * 10000 ≤ 100 * (7500 + 800))) :=
  warning_threshold_correct ⟨10000, 7500⟩ 800 (by decide)

/-- C10: `DepartmentQuota.is_quota_exceeded` is the bare comparison
`current_usage_tokens >= monthly_limit_tokens`, so every unlimited quota
(limit 0) is reported exceeded, and the status surfaces built on it —
`get_quota_enforcement_status.is_exceeded` / `can_send_requests` and
`get_usage_quota_info.quota_exceeded` — report it as exceeded and unable to
send, even though `validate_request_quota` allows every request against it. -/
theorem unlimited_quota_reported_exceeded (usage estimated : Nat) :
    DepartmentQuota.is_quota_exceeded ⟨0, usage⟩ = true
    ∧ (∀ q : DepartmentQuota, q.is_quota_exceeded =
        decide (q.monthly_limit_tokens ≤ q.current_usage_tokens))
    ∧ (get_quota_enforcement_status ⟨0, usage⟩).is_exceeded = true
    ∧ (get_quota_enforcement_status ⟨0, usage⟩).can_send_requests = false
    ∧ (get_usage_quota_info ⟨0, usage⟩).quota_exceeded = true
    ∧ (validate_request_quota ⟨0, usage⟩ estimated).allowed = true := by
  refine ⟨?_, fun q => rfl, ?_, ?_, ?_, rfl⟩ <;>
    simp [DepartmentQuota.is_quota_exceeded, get_quota_enforcement_status,
      get_usage_quota_info]

/-- C2: when the provider call raised by `ChatService.send_message` fails
(`LLMProviderError`, which includes the timeout case mapped by
`LLMService.send_message`), the whole mutable state is unchanged — the quota
keeps its `current_usage_tokens` and no usage record is appended — and the
surfaced failure is the provider-error class, distinct from the
quota-exceeded class (which occurs exactly when admission already failed
before the provider was called). -/
theorem provider_failure_leaves_quota_untouched (st : ChatState)
    (message : String) (cfg : LLMConfiguration) (f : LLMProviderFailure) :
    (chat_send_message st message cfg (.error f)).2 = st
    ∧ (chat_send_message st message cfg (.error f)).2.quota.current_usage_tokens
        = st.quota.current_usage_tokens
    ∧ (chat_send_message st message cfg (.error f)).2.usage_logs = st.usage_logs
    ∧ (chat_send_message st message cfg (.error f)).1 =
        (if (validate_request_quota st.quota
              (estimate_request_tokens message cfg)).allowed = false
         then Except.error ChatError.quotaExceeded
         else Except.error (ChatError.providerError f)) := by
  unfold chat_send_message
  by_cases h : (validate_request_quota st.quota
      (estimate_request_tokens message cfg)).allowed = false
  · simp [h]
  · simp [h]

/-- C4: starting from a reset quota, any sequence of successful usage
applications leaves `current_usage_tokens` equal to the sum of the applied
actual deltas (`prompt_tokens + completion_tokens` per call); each
application is non-decreasing, and a reset sets the counter to zero. -/
theorem usage_equals_sum_of_deltas (q : DepartmentQuota)
    (calls : List (Nat × Nat)) :
    (calls.foldl (fun acc d => update_quota_usage acc (d.1 + d.2))
        (reset_monthly q)).current_usage_tokens
      = (calls.map (fun d => d.1 + d.2)).sum
    ∧ (∀ (q' : DepartmentQuota) (tokens_used : Nat),
        q'.current_usage_tokens ≤
          (update_quota_usage q' tokens_used).current_usage_tokens)
    ∧ (reset_monthly q).current_usage_tokens = 0 := by
  refine ⟨?_, fun q' t => Nat.le_add_right _ _, rfl⟩
  rw [foldl_update_quota_usage]
  simp [reset_monthly]

/-- C7: `_estimate_request_tokens` computes exactly
`max(100, multiplier(len(message) // 4 + 50 + max(100, (len(message) // 4) // 2)))`
where the multiplier is 1.1 (as `int(total * 1.1)`) for the large tier
(provider "openai", model name containing "gpt-4"), 0.9 for the efficient
tier (model name containing "gpt-3.5") and 1 otherwise; being a total `Nat`
function it has no side effects and no failure modes, and the result is
always at least 100, hence positive. -/
theorem token_estimate_formula (message : String) (cfg : LLMConfiguration) :
    (estimate_request_tokens message cfg =
      max 100 (
        let base := message.length / 4 + 50 + max 100 (message.length / 4 / 2)
        if strLower cfg.provider = "openai".data
            ∧ strContains (strLower cfg.model_name) "gpt-4" = true then
          base * 11 / 10
        else if strLower cfg.provider = "openai".data
            ∧ strContains (strLower cfg.model_name) "gpt-3.5" = true then
          base * 9 / 10
        else base))
    ∧ 100 ≤ estimate_request_tokens message cfg
    ∧ 0 < estimate_request_tokens message cfg := by
  refine ⟨?_, ?_, ?_⟩
  · unfold estimate_request_tokens
    by_cases h1 : strLower cfg.provider = "openai".data
    · by_cases h2 : strContains (strLower cfg.model_name) "gpt-4" = true
      · simp [h1, h2]
      · by_cases h3 : strContains (strLower cfg.model_name) "gpt-3.5" = true
        · simp [h1, h2, h3]
        · simp [h1, h2, h3]
    · simp [h1]
  · exact Nat.le_max_left _ _
  · exact Nat.lt_of_lt_of_le (by decide) (Nat.le_max_left _ _)

/-- C3 (code evaluated at the failing input): four login requests carrying the
same username from the same IP inside one 900-second window. The
(username, ip) sub-counter is recorded each time and reaches 4 > 3 =
`user_limit` at the fourth request — `user_sub_limit_fired` is true, i.e.
`_check_user_rate_limit` builds and raises its `USER_RATE_LIMIT_EXCEEDED`
exception — yet the dispatch outcome of the fourth request is `Allowed`,
because that exception is caught by the blanket `except Exception` inside
`_check_user_rate_limit` itself (rate_limit.py line 361) and never reaches
`dispatch`. The IP-level count is 4, within its limit of 5. -/
theorem user_sub_limit_rejection_swallowed :
    (rate_limit_run loginLimits true true rlEmpty [0, 1, 2, 3]).1 =
      [.Allowed, .Allowed, .Allowed, .Allowed]
    ∧ user_sub_limit_fired loginLimits 3
        (rate_limit_run loginLimits true true rlEmpty [0, 1, 2]).2.user_attempts = true
    ∧ (get_attempts loginLimits.window 3 (add_attempt loginLimits.window 3
        (rate_limit_run loginLimits true true rlEmpty [0, 1, 2]).2.user_attempts)).1 = 4
    ∧ (get_attempts loginLimits.window 3 (add_attempt loginLimits.window 3
        (rate_limit_run loginLimits true true rlEmpty [0, 1, 2]).2.attempts)).1 = 4 := by
  decide

/-- C8: with the login class (5 requests per 900-second window), five requests
from one IP at seconds 0..4 are admitted, a sixth at second 5 is rejected
with `RATE_LIMIT_EXCEEDED`, and a request at second 1000 — when every
recorded timestamp is older than 900 seconds — is admitted again; moreover on
a chronologically ordered deque the retained-timestamp count after a read
never exceeds the number of events within the trailing window at read time. -/
theorem rate_window_expiry :
    ((rate_limit_run loginLimits true false rlEmpty [0, 1, 2, 3, 4, 5, 1000]).1 =
      [.Allowed, .Allowed, .Allowed, .Allowed, .Allowed, .RateLimited, .Allowed])
    ∧ ∀ (window now : Int) (l : List Int), l.Pairwise (· ≤ ·) →
        (get_attempts window now l).1 ≤
          (l.filter (fun t => decide (now - t ≤ window))).length := by
  refine ⟨by decide, ?_⟩
  intro window now l h
  unfold get_attempts
  rw [pruneOld_eq_filter_of_sorted window now l h]

/-- Witness for C8: the scenario part, and the retained-count bound at
window 900, read time 1000, deque [50, 200]. -/
theorem rate_window_expiry_witness :
    ((rate_limit_run loginLimits true false rlEmpty [0, 1, 2, 3, 4, 5, 1000]).1 =
      [.Allowed, .Allowed, .Allowed, .Allowed, .Allowed, .RateLimited, .Allowed])
    ∧ (get_attempts 900 1000 [50, 200]).1 ≤
        (([50, 200] : List Int).filter (fun t => decide (1000 - t ≤ 900))).length :=
  ⟨rate_window_expiry.1, rate_window_expiry.2 900 1000 [50, 200] (by decide)⟩

/-- C9: (1) from an unblocked state, a request that brings the pruned
in-window attempt count to `block_threshold` (which exceeds `requests` in
every configured class) is rejected with `RATE_LIMIT_EXCEEDED` and records
`blocked_until = now + 60 * block_duration` (minutes after the block fired);
(2) while `now < blocked_until` every request from that IP is rejected with
`IP_BLOCKED` and the state — attempt deque included — is untouched, so the
block holds even if the sliding-window count would have reset; (3) an IP is
blocked iff `now < blocked_until`; (4) the first check at or after expiry
removes the entry, unblocking the IP. -/
theorem ip_block_escalation (limits : RateLimitConfig)
    (is_login has_username : Bool) (st : RateLimitState) (now : Int) :
    (st.blocked_until = none →
      limits.requests < limits.block_threshold →
      limits.block_threshold ≤
        (get_attempts limits.window now (add_attempt limits.window now st.attempts)).1 →
      rate_limit_step limits is_login has_username now st =
        (.RateLimited,
          { attempts :=
              (get_attempts limits.window now (add_attempt limits.window now st.attempts)).2,
            blocked_until := some (now + 60 * limits.block_duration),
            user_attempts := st.user_attempts }))
    ∧ (∀ b, st.blocked_until = some b → now < b →
        rate_limit_step limits is_login has_username now st = (.IPBlocked, st))
    ∧ (∀ b, (is_ip_blocked now (some b)).1 = decide (now < b))
    ∧ (∀ b, b ≤ now → is_ip_blocked now (some b) = (false, none)) := by
  refine ⟨?_, ?_, ?_, ?_⟩
  · intro hnone hlt hthr
    unfold rate_limit_step
    rw [hnone]
    simp only [is_ip_blocked]
    rw [if_pos (lt_of_lt_of_le hlt hthr)]
    rw [if_pos hthr]
    rfl
  · intro b hb hlt
    unfold rate_limit_step
    rw [hb]
    simp only [is_ip_blocked]
    rw [if_pos hlt]
    rw [← hb]
  · intro b
    simp only [is_ip_blocked]
    by_cases h : now < b
    · rw [if_pos h]; simp [h]
    · rw [if_neg h]; simp [h]
  · intro b hble
    simp only [is_ip_blocked]
    rw [if_neg (by omega : ¬ now < b)]

/-- Witness for C9: a tenth login attempt at second 0 from an IP with nine
recorded attempts trips the threshold and blocks until second 1800; at
second 1700 the IP is still rejected with `IP_BLOCKED` although the window
count would have reset; at second 1800 the entry is removed. -/
theorem ip_block_escalation_witness :
    (rate_limit_step loginLimits true false 0
        { attempts := List.replicate 9 0, blocked_until := none, user_attempts := [] } =
      (.RateLimited,
        { attempts := List.replicate 10 0, blocked_until := some 1800,
          user_attempts := [] }))
    ∧ (rate_limit_step loginLimits true false 1700
        { attempts := List.replicate 10 0, blocked_until := some 1800,
          user_attempts := [] } =
      (.IPBlocked,
        { attempts := List.replicate 10 0, blocked_until := some 1800,
          user_attempts := [] }))
    ∧ (is_ip_blocked 1700 (some 1800)).1 = decide ((1700 : Int) < 1800)
    ∧ is_ip_blocked 1800 (some 1800) = (false, none) := by
  refine ⟨?_, ?_, ?_, ?_⟩
  · rw [(ip_block_escalation loginLimits true false
      ⟨List.replicate 9 0, none, []⟩ 0).1 rfl (by decide) (by decide)]
    decide
  · exact (ip_block_escalation loginLimits true false
      ⟨List.replicate 10 0, some 1800, []⟩ 1700).2.1 1800 rfl (by decide)
  · exact (ip_block_escalation loginLimits true false rlEmpty 1700).2.2.1 1800
  · exact (ip_block_escalation loginLimits true false rlEmpty 1800).2.2.2 1800 (by decide)
